import Mathlib

/-
A shallow embedding of the plot directory manager from
`chia/plotting/manager.py` (class `PlotManager`) together with theorems about
its admission gate, per-file processing, deduplication index, refresh cycle
and error handling.

Modelling conventions:
* A filesystem path is a pair of a parent-directory string and a basename
  (`PPath`); `str(path)` is `parent ++ "/" ++ name`.
* Public keys, sizes and times are natural numbers.  `time.time()` is passed
  in explicitly as a `now : Nat` argument.
* Python dictionaries become association lists (insertion order preserved,
  keys unique by construction of the operations), python sets become lists
  managed by `setAdd` / `setRemove`.
* Early `return` statements become nested `if`/`match` branches; boolean
  guards that only short-circuit on `False` become guarded conjunctions.
* The thread-pool fan-out of a batch is sequentialised: `process_file` is
  folded over the surviving paths in order, which realises one legal
  interleaving of the per-file critical sections.
* The `_refreshing_enabled` flag can be flipped by `stop_refreshing` while a
  cycle runs.  The reads of the flag inside the batch loop and before the
  `done` event are numbered consecutively; `flagAt dis k` gives the value of
  the `k`-th read, where `dis = some d` means the flag turns (and stays)
  false from read `d` on, and `dis = none` means it stays true.
-/

/-! ## Association-list and set helpers -/

def lookupA {α β : Type} [DecidableEq α] : List (α × β) → α → Option β
  | [], _ => none
  | kv :: rest, key => if kv.1 = key then some kv.2 else lookupA rest key

def insertA {α β : Type} [DecidableEq α] : List (α × β) → α → β → List (α × β)
  | [], key, v => [(key, v)]
  | kv :: rest, key, v => if kv.1 = key then (key, v) :: rest else kv :: insertA rest key v

def eraseA {α β : Type} [DecidableEq α] (l : List (α × β)) (key : α) : List (α × β) :=
  l.filter (fun kv => ! decide (kv.1 = key))

def setAdd {α : Type} [DecidableEq α] (l : List α) (x : α) : List α :=
  if x ∈ l then l else l ++ [x]

def setRemove {α : Type} [DecidableEq α] (l : List α) (x : α) : List α :=
  l.filter (fun y => ! decide (y = x))

/-- `charsStartWith hay needle` is true when `needle` is an initial segment
of `hay`. -/
def charsStartWith : List Char → List Char → Bool
  | _, [] => true
  | [], _ :: _ => false
  | a :: as, b :: bs => a == b && charsStartWith as bs

/-- Substring test on character lists, used to model python's `in` operator
on strings. -/
def charsContain : List Char → List Char → Bool
  | [], needle => charsStartWith [] needle
  | a :: as, needle => charsStartWith (a :: as) needle || charsContain as needle

def strContains (hay sub : String) : Bool :=
  charsContain hay.toList sub.toList

/-! ## Paths, stat results and provers -/

/-- An absolute path, split into the parent directory (as a string) and the
final component (`Path.name` in python). -/
structure PPath where
  parent : String
  name : String
deriving DecidableEq

def PPath.toStr (p : PPath) : String := p.parent ++ "/" ++ p.name

/-- The slice of `os.stat_result` that `process_file` reads. -/
structure StatInfo where
  st_size : Nat
  st_mtime : Nat
deriving DecidableEq

/-- The prover handle returned by `load_file`.  The plot file format itself
is out of scope; the prover is a black box exposing its filename, its `k`
parameter (`get_size`) and the keys embedded in the plot. -/
structure DiskProver where
  filename : PPath
  size : Nat
  farmer_public_key : Nat
  pool_public_key : Option Nat
  pool_contract_puzzle_hash : Option Nat
  plot_public_key : Nat
deriving DecidableEq

/-- Modelled from the spec: `_expected_plot_size` lives in
`chia/consensus/pos_quality.py`, outside the sources embedded here.  It is
the expected byte length of a plot with parameter `k`:
`((2 * k) + 1) * 2 ^ (k - 1)`. -/
def _expected_plot_size (k : Nat) : Nat := (2 * k + 1) * 2 ^ (k - 1)

/-- Modelled from the spec: the "likely still being copied" guard of
`process_file`.  The spec fixes the shape
`prover.size() >= 30 and stat.size < 0.98 * (expected_plot_size * 0.78)`
(`UI_ACTUAL_SPACE_CONSTANT_FACTOR = 0.78` also lives outside the embedded
sources).  The two rational factors are folded into one exact
cross-multiplied comparison: `0.98 * 0.78 = 7644 / 10000`. -/
def likely_being_copied (prover : DiskProver) (stat : StatInfo) : Bool :=
  decide (30 ≤ prover.size) &&
    decide (10000 * stat.st_size < 7644 * _expected_plot_size prover.size)

/-! ## Cache entries and the cache store -/

/-- One cache record per path ever observed (see `chia/plotting/cache.py`,
whose fields the spec's data model lists). -/
structure CacheEntry where
  prover : DiskProver
  farmer_public_key : Nat
  pool_public_key : Option Nat
  pool_contract_puzzle_hash : Option Nat
  plot_public_key : Nat
  last_use : Nat
deriving DecidableEq

/-- Modelled from the spec: build a new cache entry from a freshly parsed
prover (read its keys), stamping the current time as last use. -/
def CacheEntry.from_disk_prover (prover : DiskProver) (now : Nat) : CacheEntry :=
  { prover := prover
    farmer_public_key := prover.farmer_public_key
    pool_public_key := prover.pool_public_key
    pool_contract_puzzle_hash := prover.pool_contract_puzzle_hash
    plot_public_key := prover.plot_public_key
    last_use := now }

/-- Modelled from the spec: an entry is expired iff
`now - last_use > expiry_seconds`. -/
def CacheEntry.expired (e : CacheEntry) (expiry_seconds now : Nat) : Bool :=
  decide (expiry_seconds < now - e.last_use)

/-- Modelled from the spec: bumping the last-use timestamp mutates the entry
in place; it does not touch the store's dirty bit. -/
def CacheEntry.bump_last_use (e : CacheEntry) (now : Nat) : CacheEntry :=
  { e with last_use := now }

/-- Modelled from the spec: the in-memory image of the persistent cache
store (`chia/plotting/cache.py`), a path-keyed map with a dirty bit. -/
structure Cache where
  entries : List (PPath × CacheEntry)
  changed : Bool
deriving DecidableEq

def Cache.get (c : Cache) (p : PPath) : Option CacheEntry :=
  lookupA c.entries p

/-- Modelled from the spec: insert or overwrite; set the dirty bit. -/
def Cache.update (c : Cache) (p : PPath) (e : CacheEntry) : Cache :=
  { entries := insertA c.entries p e, changed := true }

/-- Modelled from the spec: bulk delete; set the dirty bit iff a deletion
happened. -/
def Cache.remove (c : Cache) (ps : List PPath) : Cache :=
  { entries := c.entries.filter (fun kv => ! decide (kv.1 ∈ ps))
    changed := c.changed || c.entries.any (fun kv => decide (kv.1 ∈ ps)) }

/-- Modelled from the spec: persist and clear the dirty bit (the on-disk
write is outside the model). -/
def Cache.save (c : Cache) : Cache :=
  { c with changed := false }

/-- In-place `bump_last_use` on the entry stored under `p`. -/
def Cache.bump (c : Cache) (p : PPath) (now : Nat) : Cache :=
  { c with entries := c.entries.map (fun kv =>
      if kv.1 = p then (kv.1, kv.2.bump_last_use now) else kv) }

/-! ## Descriptors, refresh parameters, events -/

/-- One descriptor per admitted live plot (`chia/plotting/util.py`). -/
structure PlotInfo where
  prover : DiskProver
  pool_public_key : Option Nat
  pool_contract_puzzle_hash : Option Nat
  plot_public_key : Nat
  file_size : Nat
  time_modified : Nat
deriving DecidableEq

structure PlotsRefreshParameter where
  interval_seconds : Nat := 120
  retry_invalid_seconds : Nat := 1200
  batch_size : Nat := 300
deriving DecidableEq

inductive PlotRefreshEvents where
  | started
  | batch_processed
  | done
deriving DecidableEq

structure PlotRefreshResult where
  loaded : List PlotInfo
  removed : List PPath
  processed : Nat
  remaining : Nat
  duration : Nat
deriving DecidableEq

def emptyResult : PlotRefreshResult :=
  { loaded := [], removed := [], processed := 0, remaining := 0, duration := 0 }

/-! ## The manager state -/

/-- The mutable state of `PlotManager`.  The python attributes
`_refreshing_enabled` and `_initial` are called `refreshing_enabled` and
`initial` here. -/
structure PlotManager where
  plots : List (PPath × PlotInfo)
  plot_filename_paths : List (String × String × List String)
  failed_to_open_filenames : List (PPath × Nat)
  no_key_filenames : List PPath
  farmer_public_keys : List Nat
  pool_public_keys : List Nat
  cache : Cache
  match_str : Option String
  open_no_key_filenames : Bool
  last_refresh_time : Nat
  refresh_parameter : PlotsRefreshParameter
  refreshing_enabled : Bool
  initial : Bool
deriving DecidableEq

/-- The environment a refresh cycle reads: the filesystem snapshot
(`get_plot_filenames`, flattened to the candidate path list), the prover
adapter `load_file`, and the cache TTL constant `Cache.expiry_seconds`. -/
structure Env where
  plot_paths : List PPath
  load_file : PPath → Option (StatInfo × DiskProver)
  expiry_seconds : Nat

def PlotManager.plot_count (self : PlotManager) : Nat := self.plots.length

def PlotManager.set_public_keys (self : PlotManager)
    (farmer_public_keys pool_public_keys : List Nat) : PlotManager :=
  { self with
    farmer_public_keys := farmer_public_keys
    pool_public_keys := pool_public_keys }

def PlotManager.reset (self : PlotManager) (now : Nat) : PlotManager :=
  { self with
    last_refresh_time := now
    plots := []
    plot_filename_paths := []
    failed_to_open_filenames := []
    no_key_filenames := []
    initial := true }

/-- The per-path admission gate of the batch processor
(`PlotManager.processing_required`).  The python method returns `False` as
soon as one guard trips, in this order: refreshing disabled, `match_str`
mismatch, failed-open entry younger than `retry_invalid_seconds`, path
already live, parent recorded as a duplicate of the basename. -/
def PlotManager.processing_required (self : PlotManager) (now : Nat)
    (file_path : PPath) : Bool :=
  self.refreshing_enabled
  && ! (match self.match_str with
        | some m => ! strContains file_path.toStr m
        | none => false)
  && ! (match lookupA self.failed_to_open_filenames file_path with
        | some t => decide (now - t < self.refresh_parameter.retry_invalid_seconds)
        | none => false)
  && ! (lookupA self.plots file_path).isSome
  && (match lookupA self.plot_filename_paths file_path.name with
      | some entry => ! decide (file_path.parent ∈ entry.2)
      | none => true)

/-- Lines 287-332 of `process_file`: key policy, no-key cleanup,
deduplication registration and admission, given the effective cache entry
for the path.  The key lists and the `open_no_key_filenames` flag are read
from `self`: the interleaved no-key-set updates never touch them, so this
matches the python attribute reads. -/
def PlotManager.process_file_with_entry (self : PlotManager) (now : Nat)
    (file_path : PPath) (stat_info : StatInfo) (cache_entry : CacheEntry) :
    PlotManager × Option PlotInfo :=
  let farmer_missing := ! decide (cache_entry.farmer_public_key ∈ self.farmer_public_keys)
  let pool_missing := match cache_entry.pool_public_key with
    | some pk => ! decide (pk ∈ self.pool_public_keys)
    | none => false
  let s1 := if farmer_missing then
      { self with no_key_filenames := setAdd self.no_key_filenames file_path }
    else self
  if farmer_missing && ! self.open_no_key_filenames then (s1, none)
  else
    let s2 := if pool_missing then
        { s1 with no_key_filenames := setAdd s1.no_key_filenames file_path }
      else s1
    if pool_missing && ! self.open_no_key_filenames then (s2, none)
    else
      let s3 := { s2 with no_key_filenames := setRemove s2.no_key_filenames file_path }
      match lookupA s3.plot_filename_paths file_path.name with
      | none =>
        let table4 := insertA s3.plot_filename_paths file_path.name
          (cache_entry.prover.filename.parent, [])
        let s4 := { s3 with plot_filename_paths := table4 }
        let new_plot_info : PlotInfo :=
          { prover := cache_entry.prover
            pool_public_key := cache_entry.pool_public_key
            pool_contract_puzzle_hash := cache_entry.pool_contract_puzzle_hash
            plot_public_key := cache_entry.plot_public_key
            file_size := stat_info.st_size
            time_modified := stat_info.st_mtime }
        let s5 := { s4 with cache := s4.cache.bump file_path now }
        let failed6 := eraseA s5.failed_to_open_filenames file_path
        let s6 := { s5 with failed_to_open_filenames := failed6 }
        (s6, some new_plot_info)
      | some entry =>
        let table4 := insertA s3.plot_filename_paths file_path.name
          (entry.1, setAdd entry.2 cache_entry.prover.filename.parent)
        let s4 := { s3 with plot_filename_paths := table4 }
        (s4, none)

/-- `PlotManager.process_file`: prover open (recording failures), the
likely-being-copied soft skip, cache consultation and insertion on a miss,
then the key/deduplication stage. -/
def PlotManager.process_file (self : PlotManager) (env : Env) (now : Nat)
    (file_path : PPath) : PlotManager × Option PlotInfo :=
  match env.load_file file_path with
  | none =>
    let failed := insertA self.failed_to_open_filenames file_path now
    ({ self with failed_to_open_filenames := failed }, none)
  | some (stat_info, prover) =>
    if likely_being_copied prover stat_info then (self, none)
    else
      match self.cache.get file_path with
      | some cache_entry =>
        self.process_file_with_entry now file_path stat_info cache_entry
      | none =>
        let cache_entry := CacheEntry.from_disk_prover prover now
        ({ self with cache := self.cache.update file_path cache_entry
         }).process_file_with_entry now file_path stat_info cache_entry

/-! ## Batch processing -/

/-- `PlotManager.process_batch`: pre-filter the batch through the admission
gate against the state at batch start, run `process_file` over the
survivors (the thread-pool fan-out, sequentialised in order), then merge the
returned descriptors into the live plots map, keyed by the prover's
filename. -/
def PlotManager.process_batch (self : PlotManager) (env : Env) (now : Nat)
    (plot_paths : List PPath) : PlotManager × PlotRefreshResult :=
  let paths_to_process := plot_paths.filter (fun p => self.processing_required now p)
  let folded := paths_to_process.foldl
    (fun acc p =>
      let r := acc.1.process_file env now p
      (r.1, match r.2 with | some info => acc.2 ++ [info] | none => acc.2))
    (self, ([] : List PlotInfo))
  let loaded := folded.2
  let plots2 := loaded.foldl (fun ps info => insertA ps info.prover.filename info) folded.1.plots
  let s2 := { folded.1 with plots := plots2 }
  (s2, { emptyResult with loaded := loaded, processed := plot_paths.length })

/-- Structural-recursion engine for `list_to_batches`: the fuel only has to
dominate the list length, and each step drops `batch_size ≥ 1` elements. -/
def list_to_batches_fuel : Nat → List PPath → Nat → List (Nat × List PPath)
  | _, [], _ => []
  | 0, _ :: _, _ => []
  | Nat.succ fuel, a :: tl, batch_size =>
    if batch_size = 0 then []
    else
      ((a :: tl).length - batch_size, (a :: tl).take batch_size)
        :: list_to_batches_fuel fuel ((a :: tl).drop batch_size) batch_size

/-- Modelled from the spec: `list_to_batches` from
`chia/util/generator_tools.py` partitions the candidate list into batches of
`batch_size`, yielding for each batch the count of candidates remaining
after it.  An empty list yields no batches; `batch_size = 0` raises in
python and yields nothing here. -/
def list_to_batches (l : List PPath) (batch_size : Nat) : List (Nat × List PPath) :=
  list_to_batches_fuel l.length l batch_size

/-- The value of the `k`-th read of `_refreshing_enabled` during a cycle:
with `dis = some d` the flag is true for reads before `d` and false from
read `d` on (the flag, once dropped by `stop_refreshing`, stays down);
with `dis = none` it stays true. -/
def flagAt (dis : Option Nat) (k : Nat) : Bool :=
  match dis with
  | none => true
  | some d => decide (k < d)

/-- The `for remaining, batch in list_to_batches(...)` loop of
`_refresh_task`: process a batch, re-read the enabled flag (read number `k`)
and break silently if it dropped, otherwise record the batch result, emit
`batch_processed`, and stop after the batch that leaves `remaining = 0`.
Returns the state, the accumulated totals, the emitted events and the
number of flag reads performed. -/
def batchLoop (env : Env) (now : Nat) (dis : Option Nat) :
    List (Nat × List PPath) → Nat → PlotManager → PlotRefreshResult →
    PlotManager × PlotRefreshResult × List (PlotRefreshEvents × PlotRefreshResult) × Nat
  | [], k, s, total => (s, total, [], k)
  | (remaining, batch) :: rest, k, s, total =>
    let pb := s.process_batch env now batch
    if flagAt dis k = false then (pb.1, total, [], k + 1)
    else
      let br := { pb.2 with remaining := remaining }
      let total1 := { total with
        loaded := total.loaded ++ br.loaded
        processed := total.processed + br.processed
        duration := total.duration + br.duration }
      if remaining = 0 then
        (pb.1, total1, [(PlotRefreshEvents.batch_processed, br)], k + 1)
      else
        let r := batchLoop env now dis rest (k + 1) pb.1 total1
        (r.1, r.2.1, (PlotRefreshEvents.batch_processed, br) :: r.2.2.1, r.2.2.2)

/-! ## The refresh cycle -/

/-- One entry of the reconciliation sweep over `plot_filename_paths`
(lines 162-185 of `_refresh_task`): accumulator is the rebuilt table, the
live plots map and the removed-path records. -/
def reconcile_step (plot_paths : List PPath)
    (acc : List (String × String × List String) × List (PPath × PlotInfo) × List PPath)
    (entry : String × String × List String) :
    List (String × String × List String) × List (PPath × PlotInfo) × List PPath :=
  let plot_filename := entry.1
  let loaded_path := entry.2.1
  let duplicated_paths := entry.2.2
  let loaded_plot : PPath := { parent := loaded_path, name := plot_filename }
  if loaded_plot ∈ plot_paths then
    let kept := duplicated_paths.filter
      (fun par => decide (({ parent := par, name := plot_filename } : PPath) ∈ plot_paths))
    let gone := duplicated_paths.filter
      (fun par => ! decide (({ parent := par, name := plot_filename } : PPath) ∈ plot_paths))
    (acc.1 ++ [(plot_filename, loaded_path, kept)], acc.2.1,
      acc.2.2 ++ gone.map (fun par => { parent := par, name := plot_filename }))
  else
    (acc.1, eraseA acc.2.1 loaded_plot, acc.2.2 ++ [loaded_plot])

/-- Drop dedup-index entries (and the corresponding live plots) whose
primary file disappeared, and prune duplicate parents whose composed path
disappeared, recording every dropped path as removed. -/
def reconcile (plot_paths : List PPath) (self : PlotManager) :
    PlotManager × List PPath :=
  let folded := self.plot_filename_paths.foldl (reconcile_step plot_paths)
    ([], self.plots, [])
  ({ self with plot_filename_paths := folded.1, plots := folded.2.1 }, folded.2.2)

/-- Lines 154-185 of `_refresh_task`: prune failed-open entries and no-key
entries whose paths left the filesystem, then reconcile the dedup index and
the live plots map.  Returns the new state and the removed-path records. -/
def diff_phase (env : Env) (self : PlotManager) : PlotManager × List PPath :=
  let failed1 := self.failed_to_open_filenames.filter
    (fun kv => decide (kv.1 ∈ env.plot_paths))
  let noKey1 := self.no_key_filenames.filter (fun p => decide (p ∈ env.plot_paths))
  let s1 := { self with failed_to_open_filenames := failed1, no_key_filenames := noKey1 }
  reconcile env.plot_paths s1

/-- Lines 209-216 of `_refresh_task`: one pass over the cache, bumping the
last-use of entries whose path is live and collecting expired entries whose
path is not live, then bulk-removing the latter. -/
def cache_cleanup (now expiry_seconds : Nat) (plots : List (PPath × PlotInfo))
    (c : Cache) : Cache :=
  let bumped := c.entries.map (fun kv =>
    if (lookupA plots kv.1).isSome then (kv.1, kv.2.bump_last_use now) else kv)
  let remove_paths := (c.entries.filter (fun kv =>
    kv.2.expired expiry_seconds now && ! (lookupA plots kv.1).isSome)).map (·.1)
  Cache.remove { entries := bumped, changed := c.changed } remove_paths

/-- One refresh cycle (lines 143-228 of `_refresh_task`), entered with
refreshing enabled: snapshot candidates, emit `started`, diff, batch with
the flag-read schedule `dis`, emit `done` only if the flag is still up,
clear `initial`, sweep the cache TTL, save the cache if dirty, and stamp
`last_refresh_time`.  Returns the new state and the emitted events in
order. -/
def refresh_cycle (env : Env) (now : Nat) (dis : Option Nat)
    (self : PlotManager) :
    PlotManager × List (PlotRefreshEvents × PlotRefreshResult) :=
  let dp := diff_phase env self
  let batches := list_to_batches env.plot_paths self.refresh_parameter.batch_size
  let bl := batchLoop env now dis batches 0 dp.1 { emptyResult with removed := dp.2 }
  let doneEvs := if flagAt dis bl.2.2.2 then [(PlotRefreshEvents.done, bl.2.1)] else []
  let s4 := { bl.1 with initial := false }
  let c1 := cache_cleanup now env.expiry_seconds s4.plots s4.cache
  let c2 := if c1.changed then c1.save else c1
  ({ s4 with cache := c2, last_refresh_time := now },
    (PlotRefreshEvents.started, { emptyResult with remaining := env.plot_paths.length })
      :: (bl.2.2.1 ++ doneEvs))

/-! ## The loop's try/except -/

/-- One iteration of the `while` loop of `_refresh_task`: the cycle body
runs under `try`; any exception it raises is caught and answered with
`reset()` (the events already delivered before the raise are not part of
the claim model).  The body is abstract so that the statement covers an
exception raised anywhere inside the cycle. -/
def refresh_task_iteration (now : Nat)
    (body : PlotManager → Except Unit (PlotManager × List (PlotRefreshEvents × PlotRefreshResult)))
    (self : PlotManager) : PlotManager × List (PlotRefreshEvents × PlotRefreshResult) :=
  match body self with
  | Except.ok r => r
  | Except.error _ => (self.reset now, [])

/-- `n` iterations of the `while self._refreshing_enabled` loop; the `t`-th
iteration runs body `body t` at time `t`. -/
def refresh_loop
    (body : Nat → PlotManager → Except Unit (PlotManager × List (PlotRefreshEvents × PlotRefreshResult))) :
    Nat → Nat → PlotManager → PlotManager
  | 0, _, s => s
  | Nat.succ n, t, s =>
    if s.refreshing_enabled then
      refresh_loop body n (t + 1) (refresh_task_iteration t (body t) s).1
    else s

/-- Well-formedness of the `remaining` counts of a batch list: only the
final batch may report `remaining = 0`. -/
def wfRemaining : List Nat → Prop
  | [] => True
  | r :: rest => (r = 0 → rest = []) ∧ wfRemaining rest

/-- The observable skeleton of `batchLoop`: how many `batch_processed`
events it emits and how many flag reads it performs, as a function of the
`remaining` counts alone. -/
def batchLoopMeta (dis : Option Nat) : List Nat → Nat → Nat × Nat
  | [], k => (0, k)
  | r :: rest, k =>
    if flagAt dis k = false then (0, k + 1)
    else if r = 0 then (1, k + 1)
    else
      let m := batchLoopMeta dis rest (k + 1)
      (m.1 + 1, m.2)

/-! ## Concrete instances used by the scenarios -/

def examplePath : PPath := { parent := "/d1", name := "a.plot" }

def examplePath2 : PPath := { parent := "/d2", name := "b.plot" }

/-- A `k = 32` plot at `/d1/a.plot` with farmer key `1`, pool key `3`,
plot key `7`. -/
def exampleProver : DiskProver :=
  { filename := examplePath, size := 32, farmer_public_key := 1
    pool_public_key := some 3, pool_contract_puzzle_hash := none
    plot_public_key := 7 }

/-- A stat result large enough to pass the likely-being-copied guard for
`k = 32` (`0.7644 * _expected_plot_size 32 < 139 * 10 ^ 9`). -/
def exampleStat : StatInfo := { st_size := 139000000000, st_mtime := 500 }

def exampleInfo : PlotInfo :=
  { prover := exampleProver, pool_public_key := some 3
    pool_contract_puzzle_hash := none, plot_public_key := 7
    file_size := 139000000000, time_modified := 500 }

def exampleEntry : CacheEntry := CacheEntry.from_disk_prover exampleProver 10

/-- A manager with allow-lists `{1}` (farmer) and `{3}` (pool), refreshing
enabled, default refresh parameters, and all tables empty. -/
def baseManager : PlotManager :=
  { plots := [], plot_filename_paths := [], failed_to_open_filenames := []
    no_key_filenames := [], farmer_public_keys := [1], pool_public_keys := [3]
    cache := { entries := [], changed := false }, match_str := none
    open_no_key_filenames := false, last_refresh_time := 0
    refresh_parameter := {}, refreshing_enabled := true, initial := false }

/-- A filesystem containing exactly `/d1/a.plot`, which parses to
`exampleProver`. -/
def loadEnv : Env :=
  { plot_paths := [examplePath]
    load_file := fun p => if p = examplePath then some (exampleStat, exampleProver) else none
    expiry_seconds := 1000000 }

/-- S1 state: `/d1/a.plot` admitted, registered as primary, cached. -/
def c1_admitted : PlotManager :=
  { baseManager with
    plots := [(examplePath, exampleInfo)]
    plot_filename_paths := [("a.plot", "/d1", [])]
    cache := { entries := [(examplePath, exampleEntry)], changed := false } }

/-- S4 state: after `set_public_keys([F2], [P1])` the plot's farmer key `1`
is no longer allowed. -/
def c1_rotated : PlotManager := c1_admitted.set_public_keys [2] [3]

/-- Missing-farmer-key state with `open_no_key_filenames = true` and a
cache hit for `/d1/a.plot`. -/
def c2_manager : PlotManager :=
  { baseManager with
    open_no_key_filenames := true
    farmer_public_keys := [2]
    cache := { entries := [(examplePath, exampleEntry)], changed := false } }

/-- A populated manager used to exercise `reset()`. -/
def c3_manager : PlotManager :=
  { baseManager with
    plots := [(examplePath, exampleInfo)]
    plot_filename_paths := [("a.plot", "/d1", [])]
    failed_to_open_filenames := [({ parent := "/d2", name := "x.plot" }, 5)]
    no_key_filenames := [{ parent := "/d3", name := "y.plot" }]
    cache := { entries := [(examplePath, exampleEntry)], changed := false } }

/-- A failing cycle body: raises no matter the state. -/
def failingBody : Nat → PlotManager →
    Except Unit (PlotManager × List (PlotRefreshEvents × PlotRefreshResult)) :=
  fun _ _ => Except.error ()

/-- Dedup index knows `a.plot` with primary `/d1` and no duplicates. -/
def c4_manager : PlotManager :=
  { baseManager with plot_filename_paths := [("a.plot", "/d1", [])] }

/-- The same basename in a different, not yet recorded, parent. -/
def c4_path : PPath := { parent := "/d2", name := "a.plot" }

/-- Dedup index already records `/d2` as a duplicate parent of `a.plot`. -/
def c4w_manager : PlotManager :=
  { baseManager with plot_filename_paths := [("a.plot", "/d1", ["/d2"])] }

/-- Primary `/d1` recorded for `a.plot`; the cached prover lives in `/d1`
itself and both keys are allowed. -/
def c5_manager : PlotManager :=
  { baseManager with
    plot_filename_paths := [("a.plot", "/d1", [])]
    cache := { entries := [(examplePath, exampleEntry)], changed := false } }

/-- A filesystem where `/d1/a.plot` parses but its stat size is far below
the expected plot size for `k = 32`. -/
def c6_env : Env :=
  { plot_paths := [examplePath]
    load_file := fun p =>
      if p = examplePath then some ({ st_size := 1000, st_mtime := 5 }, exampleProver) else none
    expiry_seconds := 1000000 }

/-- A manager whose failed-open table records `/d1/a.plot` at time 100. -/
def c7_manager : PlotManager :=
  { baseManager with failed_to_open_filenames := [(examplePath, 100)] }

/-- Batch size 1, so two candidate paths make two batches. -/
def c8_manager : PlotManager :=
  { baseManager with
    refresh_parameter := { interval_seconds := 120, retry_invalid_seconds := 1200, batch_size := 1 } }

/-- Two candidate paths, neither of which opens. -/
def c8_env : Env :=
  { plot_paths := [examplePath, examplePath2]
    load_file := fun _ => none
    expiry_seconds := 1000000 }

/-- Farmer allow-list `{2}` (the example plot's key `1` is not allowed),
`open_no_key_filenames = false`, empty cache. -/
def c10_manager : PlotManager :=
  { baseManager with farmer_public_keys := [2] }

/-! ## Helper lemmas -/

theorem lookupA_insertA_self {α β : Type} [DecidableEq α]
    (l : List (α × β)) (k : α) (v : β) :
    lookupA (insertA l k v) k = some v := by
  induction l with
  | nil => simp [insertA, lookupA]
  | cons kv rest ih =>
    by_cases h : kv.1 = k <;> simp [insertA, lookupA, h, ih]

/-! ## Claims -/

/-- Claim C6: a file that parses with `prover.get_size() ≥ 30` and whose
stat size is below 0.98 of the expected plot size is soft-skipped:
`process_file` returns `none` and leaves the whole state — in particular
the failed-open table — unchanged. -/
theorem c6_soft_skip (env : Env) (now : Nat) (s : PlotManager) (p : PPath)
    (stat : StatInfo) (prover : DiskProver)
    (hload : env.load_file p = some (stat, prover))
    (hk : 30 ≤ prover.size)
    (hsz : 10000 * stat.st_size < 7644 * _expected_plot_size prover.size) :
    s.process_file env now p = (s, none) ∧
    (s.process_file env now p).1.failed_to_open_filenames =
      s.failed_to_open_filenames := by
  have hc : likely_being_copied prover stat = true := by
    simp [likely_being_copied, hk, hsz]
  refine ⟨?_, ?_⟩ <;> simp [PlotManager.process_file, hload, hc]

/-- Claim C6 witness: `/d1/a.plot` with `k = 32` and stat size 1000 is
soft-skipped. -/
theorem c6_witness :
    c6_env.load_file examplePath =
      some ({ st_size := 1000, st_mtime := 5 }, exampleProver) ∧
    30 ≤ exampleProver.size ∧
    10000 * (1000 : Nat) < 7644 * _expected_plot_size exampleProver.size ∧
    (baseManager.process_file c6_env 77 examplePath = (baseManager, none) ∧
     (baseManager.process_file c6_env 77 examplePath).1.failed_to_open_filenames =
       baseManager.failed_to_open_filenames) :=
  ⟨by decide, by decide, by decide,
    c6_soft_skip c6_env 77 baseManager examplePath
      { st_size := 1000, st_mtime := 5 } exampleProver (by decide) (by decide) (by decide)⟩

/-- Claim C7: a path recorded in the failed-open table at time `T` is
rejected by the admission gate at every moment in
`[T, T + retry_invalid_seconds)`, so it is not retried for at least
`retry_invalid_seconds` after `T`. -/
theorem c7_retry_backoff (s : PlotManager) (p : PPath) (now T : Nat)
    (hT : lookupA s.failed_to_open_filenames p = some T)
    (h1 : T ≤ now)
    (h2 : now < T + s.refresh_parameter.retry_invalid_seconds) :
    s.processing_required now p = false := by
  have hlt : now - T < s.refresh_parameter.retry_invalid_seconds := by omega
  simp [PlotManager.processing_required, hT, hlt]

/-- Claim C7 witness: recorded at `T = 100` with backoff 1200, the path is
still rejected at `now = 150`. -/
theorem c7_witness :
    lookupA c7_manager.failed_to_open_filenames examplePath = some 100 ∧
    (100 : Nat) ≤ 150 ∧
    (150 : Nat) < 100 + c7_manager.refresh_parameter.retry_invalid_seconds ∧
    c7_manager.processing_required 150 examplePath = false :=
  ⟨by decide, by decide, by decide,
    c7_retry_backoff c7_manager examplePath 150 100 (by decide) (by decide) (by decide)⟩

/-- Claim C4 counterexample: `a.plot` is known in the dedup index with
primary parent `/d1`; the candidate `/d2/a.plot` has a different parent,
yet `processing_required` returns `true` (the gate only rejects parents
already recorded in the duplicates set). -/
theorem c4_counterexample :
    lookupA c4_manager.plot_filename_paths c4_path.name = some ("/d1", []) ∧
    c4_path.parent ≠ "/d1" ∧
    c4_manager.processing_required 0 c4_path = true := by
  refine ⟨by decide, by decide, by decide⟩

/-- Claim C4 (amended): when the other guards pass (refreshing enabled, no
`match_str`, no failed-open record, not live), the pre-filter rejects a
path precisely when the basename is known and the path's parent is already
recorded in its duplicates set; a basename known with a different primary
whose parent is not yet recorded as a duplicate passes the filter. -/
theorem c4_amended (s : PlotManager) (now : Nat) (p : PPath)
    (hen : s.refreshing_enabled = true)
    (hm : s.match_str = none)
    (hf : lookupA s.failed_to_open_filenames p = none)
    (hp : lookupA s.plots p = none) :
    s.processing_required now p = false ↔
      (∃ primary duplicates,
        lookupA s.plot_filename_paths p.name = some (primary, duplicates) ∧
        p.parent ∈ duplicates) := by
  cases hval : lookupA s.plot_filename_paths p.name with
  | none => simp [PlotManager.processing_required, hen, hm, hf, hp, hval]
  | some entry =>
    cases entry with
    | mk primary duplicates =>
      by_cases hdup : p.parent ∈ duplicates <;>
        simp [PlotManager.processing_required, hen, hm, hf, hp, hval, hdup]
      exact ⟨primary, duplicates, ⟨rfl, rfl⟩, hdup⟩

/-- Claim C4 witness: with `/d2` recorded as a duplicate parent of
`a.plot`, the gate rejects `/d2/a.plot`. -/
theorem c4_witness :
    c4w_manager.refreshing_enabled = true ∧
    c4w_manager.match_str = none ∧
    lookupA c4w_manager.failed_to_open_filenames c4_path = none ∧
    lookupA c4w_manager.plots c4_path = none ∧
    (c4w_manager.processing_required 0 c4_path = false ↔
      (∃ primary duplicates,
        lookupA c4w_manager.plot_filename_paths c4_path.name = some (primary, duplicates) ∧
        c4_path.parent ∈ duplicates)) :=
  ⟨by decide, by decide, by decide, by decide,
    c4_amended c4w_manager 0 c4_path (by decide) (by decide) (by decide) (by decide)⟩

/-- Claim C2 (code bug): with `open_no_key_filenames = true` and a cached
farmer key outside the allow-list, `process_file` puts the path in the
no-key set but the unconditional cleanup after the key checks removes it
again, so the plot is admitted (`some`) while the no-key set does NOT
retain the path — contradicting the spec and the code's own comment. -/
theorem c2_code_behavior :
    c2_manager.open_no_key_filenames = true ∧
    exampleEntry.farmer_public_key ∉ c2_manager.farmer_public_keys ∧
    c2_manager.cache.get examplePath = some exampleEntry ∧
    (c2_manager.process_file loadEnv 50 examplePath).2.isSome = true ∧
    examplePath ∉ (c2_manager.process_file loadEnv 50 examplePath).1.no_key_filenames := by
  refine ⟨by decide, by decide, by decide, by decide, by decide⟩

/-- Claim C5 counterexample: registering `/d1/a.plot` while the dedup index
already records `a.plot` with primary `/d1` and empty duplicates: the
result is Duplicate (`none`), but the duplicates set is NOT left unchanged —
the primary parent `/d1` itself is inserted into it. -/
theorem c5_counterexample :
    lookupA c5_manager.plot_filename_paths "a.plot" = some ("/d1", []) ∧
    examplePath.parent = "/d1" ∧
    (c5_manager.process_file loadEnv 50 examplePath).2 = none ∧
    lookupA (c5_manager.process_file loadEnv 50 examplePath).1.plot_filename_paths
      "a.plot" = some ("/d1", ["/d1"]) := by
  refine ⟨by decide, by decide, by decide, by decide⟩

/-- Claim C5 (amended): when a parsed path with allowed keys is registered
and its basename is already present, the result is always Duplicate
(`none`) and the prover's parent directory is inserted into the duplicates
set unconditionally — also when it equals the recorded primary; only the
idempotence of set insertion keeps the set unchanged when the parent is
already a recorded duplicate. -/
theorem c5_amended (env : Env) (now : Nat) (s : PlotManager) (p : PPath)
    (stat : StatInfo) (prover : DiskProver) (ce : CacheEntry)
    (primary : String) (duplicates : List String)
    (hload : env.load_file p = some (stat, prover))
    (hcopy : likely_being_copied prover stat = false)
    (hce : s.cache.get p = some ce)
    (hfarm : ce.farmer_public_key ∈ s.farmer_public_keys)
    (hpool : ∀ pk, ce.pool_public_key = some pk → pk ∈ s.pool_public_keys)
    (hdup : lookupA s.plot_filename_paths p.name = some (primary, duplicates)) :
    (s.process_file env now p).2 = none ∧
    lookupA (s.process_file env now p).1.plot_filename_paths p.name =
      some (primary, setAdd duplicates ce.prover.filename.parent) ∧
    (ce.prover.filename.parent ∈ duplicates →
      setAdd duplicates ce.prover.filename.parent = duplicates) := by
  have hpm : (match ce.pool_public_key with
      | some pk => ! decide (pk ∈ s.pool_public_keys)
      | none => false) = false := by
    cases hpk : ce.pool_public_key with
    | none => rfl
    | some pk => simp [hpool pk hpk]
  refine ⟨?_, ?_, ?_⟩
  · simp [PlotManager.process_file, PlotManager.process_file_with_entry,
      hload, hcopy, hce, hfarm, hpm, hdup]
  · simp [PlotManager.process_file, PlotManager.process_file_with_entry,
      hload, hcopy, hce, hfarm, hpm, hdup, lookupA_insertA_self]
  · intro h
    simp [setAdd, h]

/-- Claim C5 witness: the amended registration behaviour at the concrete
S2-style input (primary `/d1`, empty duplicates, prover parent `/d1`). -/
theorem c5_witness :
    loadEnv.load_file examplePath = some (exampleStat, exampleProver) ∧
    likely_being_copied exampleProver exampleStat = false ∧
    c5_manager.cache.get examplePath = some exampleEntry ∧
    exampleEntry.farmer_public_key ∈ c5_manager.farmer_public_keys ∧
    lookupA c5_manager.plot_filename_paths examplePath.name = some ("/d1", []) ∧
    ((c5_manager.process_file loadEnv 50 examplePath).2 = none ∧
     lookupA (c5_manager.process_file loadEnv 50 examplePath).1.plot_filename_paths
       examplePath.name =
       some ("/d1", setAdd [] exampleEntry.prover.filename.parent) ∧
     (exampleEntry.prover.filename.parent ∈ ([] : List String) →
       setAdd [] exampleEntry.prover.filename.parent = [])) :=
  ⟨by decide, by decide, by decide, by decide, by decide,
    c5_amended loadEnv 50 c5_manager examplePath exampleStat exampleProver
      exampleEntry "/d1" [] (by decide) (by decide) (by decide) (by decide)
      (by
        intro pk h
        have h3 : (3 : Nat) = pk := by
          simpa [exampleEntry, CacheEntry.from_disk_prover, exampleProver] using h
        subst h3
        decide)
      (by decide)⟩

/-- In every branch of the key/deduplication stage that returns `none`, only
the no-key set and the dedup index are written: the cache, the live plots
map and the failed-open table come out untouched. -/
theorem process_file_with_entry_rejected (s : PlotManager) (now : Nat)
    (p : PPath) (stat : StatInfo) (ce : CacheEntry)
    (hrej : (s.process_file_with_entry now p stat ce).2 = none) :
    (s.process_file_with_entry now p stat ce).1.cache = s.cache ∧
    (s.process_file_with_entry now p stat ce).1.plots = s.plots ∧
    (s.process_file_with_entry now p stat ce).1.failed_to_open_filenames =
      s.failed_to_open_filenames := by
  simp only [PlotManager.process_file_with_entry] at hrej ⊢
  generalize hfm : (! decide (ce.farmer_public_key ∈ s.farmer_public_keys)) = fm at hrej ⊢
  generalize hpm : (match ce.pool_public_key with
      | some pk => ! decide (pk ∈ s.pool_public_keys)
      | none => false) = pm at hrej ⊢
  cases fm <;> cases pm <;> cases hopen : s.open_no_key_filenames <;>
    cases hval : lookupA s.plot_filename_paths p.name <;>
    simp [hopen, hval] at hrej ⊢

/-- Claim C10: on a cache miss that parses and passes the size check, the
new cache entry is inserted before the key and duplicate checks, so when
`process_file` subsequently rejects the path and returns `none`, the entry
is still in the cache (the final cache is exactly the insertion) and
neither the live plots map nor the failed-open table was modified. -/
theorem c10_cache_persist (env : Env) (now : Nat) (s : PlotManager) (p : PPath)
    (stat : StatInfo) (prover : DiskProver)
    (hload : env.load_file p = some (stat, prover))
    (hcopy : likely_being_copied prover stat = false)
    (hmiss : s.cache.get p = none)
    (hrej : (s.process_file env now p).2 = none) :
    (s.process_file env now p).1.cache =
      s.cache.update p (CacheEntry.from_disk_prover prover now) ∧
    (s.process_file env now p).1.plots = s.plots ∧
    (s.process_file env now p).1.failed_to_open_filenames =
      s.failed_to_open_filenames := by
  have hpf : s.process_file env now p =
      ({ s with cache := s.cache.update p (CacheEntry.from_disk_prover prover now)
       }).process_file_with_entry now p stat (CacheEntry.from_disk_prover prover now) := by
    simp [PlotManager.process_file, hload, hcopy, hmiss]
  rw [hpf] at hrej ⊢
  simpa using process_file_with_entry_rejected _ now p stat _ hrej

/-- Claim C10 witness: `/d1/a.plot` is a cache miss, parses, gets rejected
by the farmer-key policy, and the freshly inserted cache entry survives
while plots and failed-open stay untouched. -/
theorem c10_witness :
    loadEnv.load_file examplePath = some (exampleStat, exampleProver) ∧
    likely_being_copied exampleProver exampleStat = false ∧
    c10_manager.cache.get examplePath = none ∧
    (c10_manager.process_file loadEnv 60 examplePath).2 = none ∧
    ((c10_manager.process_file loadEnv 60 examplePath).1.cache =
       c10_manager.cache.update examplePath
         (CacheEntry.from_disk_prover exampleProver 60) ∧
     (c10_manager.process_file loadEnv 60 examplePath).1.plots = c10_manager.plots ∧
     (c10_manager.process_file loadEnv 60 examplePath).1.failed_to_open_filenames =
       c10_manager.failed_to_open_filenames) :=
  ⟨by decide, by decide, by decide, by decide,
    c10_cache_persist loadEnv 60 c10_manager examplePath exampleStat exampleProver
      (by decide) (by decide) (by decide) (by decide)⟩

/-- Claim C3 counterexample: an exception in the cycle body triggers
`reset()`, but `reset()` does not clear every in-memory table: the cache
entries survive it. -/
theorem c3_counterexample :
    (refresh_task_iteration 42 (failingBody 42) c3_manager).1.cache.entries =
      c3_manager.cache.entries ∧
    c3_manager.cache.entries ≠ [] := by
  refine ⟨by decide, by decide⟩

/-- Claim C3 (amended): any exception raised by the cycle body is caught by
the loop iteration, which answers with `reset()`: the live plots map, the
dedup index, the failed-open table and the no-key set are cleared,
`initial` is set, `last_refresh_time` is set to the current time — while
the cache survives — and, while refreshing stays enabled, the loop
continues with the next iteration from the reset state. -/
theorem c3_amended (t n : Nat) (s : PlotManager)
    (body : Nat → PlotManager →
      Except Unit (PlotManager × List (PlotRefreshEvents × PlotRefreshResult)))
    (hen : s.refreshing_enabled = true)
    (herr : body t s = Except.error ()) :
    refresh_task_iteration t (body t) s = (s.reset t, []) ∧
    (s.reset t).plots = [] ∧
    (s.reset t).plot_filename_paths = [] ∧
    (s.reset t).failed_to_open_filenames = [] ∧
    (s.reset t).no_key_filenames = [] ∧
    (s.reset t).initial = true ∧
    (s.reset t).last_refresh_time = t ∧
    (s.reset t).cache = s.cache ∧
    refresh_loop body (n + 1) t s = refresh_loop body n (t + 1) (s.reset t) := by
  refine ⟨by simp [refresh_task_iteration, herr], rfl, rfl, rfl, rfl, rfl, rfl, rfl, ?_⟩
  simp [refresh_loop, hen, refresh_task_iteration, herr]

/-- Claim C3 witness: the amended behaviour at the populated example state
with an always-raising body. -/
theorem c3_witness :
    c3_manager.refreshing_enabled = true ∧
    failingBody 42 c3_manager = Except.error () ∧
    (refresh_task_iteration 42 (failingBody 42) c3_manager = (c3_manager.reset 42, []) ∧
     (c3_manager.reset 42).plots = [] ∧
     (c3_manager.reset 42).plot_filename_paths = [] ∧
     (c3_manager.reset 42).failed_to_open_filenames = [] ∧
     (c3_manager.reset 42).no_key_filenames = [] ∧
     (c3_manager.reset 42).initial = true ∧
     (c3_manager.reset 42).last_refresh_time = 42 ∧
     (c3_manager.reset 42).cache = c3_manager.cache ∧
     refresh_loop failingBody (0 + 1) 42 c3_manager =
       refresh_loop failingBody 0 (42 + 1) (c3_manager.reset 42)) :=
  ⟨by decide, rfl,
    c3_amended 42 0 c3_manager failingBody (by decide) rfl⟩

theorem wfRemaining_list_to_batches_fuel :
    ∀ (fuel : Nat) (l : List PPath) (bs : Nat), l.length ≤ fuel → bs ≠ 0 →
      wfRemaining ((list_to_batches_fuel fuel l bs).map Prod.fst) := by
  intro fuel
  induction fuel with
  | zero =>
    intro l bs hl _
    cases l with
    | nil => simp [list_to_batches_fuel, wfRemaining]
    | cons a tl => simp at hl
  | succ f ih =>
    intro l bs hl hbs
    cases l with
    | nil => simp [list_to_batches_fuel, wfRemaining]
    | cons a tl =>
      simp only [list_to_batches_fuel, hbs, if_false, List.map_cons]
      refine ⟨?_, ?_⟩
      · intro h0
        have hlen : ((a :: tl).drop bs).length = 0 := by
          simp only [List.length_drop]
          simp only [List.length_cons] at h0 ⊢
          omega
        have hd : (a :: tl).drop bs = [] := List.eq_nil_of_length_eq_zero hlen
        rw [hd]
        cases f <;> simp [list_to_batches_fuel]
      · refine ih _ _ ?_ hbs
        simp only [List.length_drop, List.length_cons] at hl ⊢
        omega

theorem wfRemaining_list_to_batches (l : List PPath) (bs : Nat) (hbs : bs ≠ 0) :
    wfRemaining ((list_to_batches l bs).map Prod.fst) :=
  wfRemaining_list_to_batches_fuel l.length l bs (Nat.le_refl _) hbs

theorem batchLoop_events (env : Env) (now : Nat) (dis : Option Nat) :
    ∀ (batches : List (Nat × List PPath)) (k : Nat) (s : PlotManager)
      (total : PlotRefreshResult) (ev : PlotRefreshEvents × PlotRefreshResult),
      ev ∈ (batchLoop env now dis batches k s total).2.2.1 →
      ev.1 = PlotRefreshEvents.batch_processed := by
  intro batches
  induction batches with
  | nil =>
    intro k s total ev h
    simp [batchLoop] at h
  | cons b rest ih =>
    intro k s total ev h
    rcases b with ⟨remaining, batch⟩
    simp only [batchLoop] at h
    by_cases hf : flagAt dis k = false
    · simp [hf] at h
    · by_cases hr : remaining = 0
      · simp [hf, hr] at h
        subst h
        rfl
      · simp [hf, hr] at h
        rcases h with h | h
        · subst h
          rfl
        · exact ih _ _ _ _ h

theorem batchLoop_len_eq (env : Env) (now : Nat) (dis : Option Nat) :
    ∀ (batches : List (Nat × List PPath)) (k : Nat) (s : PlotManager)
      (total : PlotRefreshResult),
      (batchLoop env now dis batches k s total).2.2.1.length =
        (batchLoopMeta dis (batches.map Prod.fst) k).1 := by
  intro batches
  induction batches with
  | nil =>
    intro k s total
    simp [batchLoop, batchLoopMeta]
  | cons b rest ih =>
    intro k s total
    rcases b with ⟨remaining, batch⟩
    simp only [batchLoop, batchLoopMeta, List.map_cons]
    by_cases hf : flagAt dis k = false
    · simp [hf]
    · by_cases hr : remaining = 0
      · simp [hf, hr]
      · simp [hf, hr, ih]

theorem batchLoop_reads_eq (env : Env) (now : Nat) (dis : Option Nat) :
    ∀ (batches : List (Nat × List PPath)) (k : Nat) (s : PlotManager)
      (total : PlotRefreshResult),
      (batchLoop env now dis batches k s total).2.2.2 =
        (batchLoopMeta dis (batches.map Prod.fst) k).2 := by
  intro batches
  induction batches with
  | nil =>
    intro k s total
    simp [batchLoop, batchLoopMeta]
  | cons b rest ih =>
    intro k s total
    rcases b with ⟨remaining, batch⟩
    simp only [batchLoop, batchLoopMeta, List.map_cons]
    by_cases hf : flagAt dis k = false
    · simp [hf]
    · by_cases hr : remaining = 0
      · simp [hf, hr]
      · simp [hf, hr, ih]

theorem batchLoopMeta_disabled (d : Nat) :
    ∀ (rs : List Nat) (k : Nat), wfRemaining rs → d < k + rs.length →
      (batchLoopMeta (some d) rs k).1 ≤ d - k ∧
      d ≤ (batchLoopMeta (some d) rs k).2 := by
  intro rs
  induction rs with
  | nil =>
    intro k _ hd
    simp only [batchLoopMeta, List.length_nil] at hd ⊢
    omega
  | cons r rest ih =>
    intro k hwf hd
    rcases hwf with ⟨hwf0, hwfr⟩
    simp only [batchLoopMeta]
    by_cases hf : flagAt (some d) k = false
    · have hkd : ¬ k < d := by simpa [flagAt] using hf
      simp only [hf, if_true]
      simp
      omega
    · have hkd : k < d := by
        have h2 := hf
        simp only [flagAt, decide_eq_false_iff_not, Decidable.not_not] at h2
        exact h2
      by_cases hr : r = 0
      · exfalso
        have hrest : rest = [] := hwf0 hr
        subst hrest
        simp only [List.length_cons, List.length_nil] at hd
        omega
      · have hft : flagAt (some d) k = true := by
          simp only [flagAt, decide_eq_true_eq]
          exact hkd
        simp only [List.length_cons] at hd
        obtain ⟨hr1, hr2⟩ := ih (k + 1) hwfr (by omega)
        rw [if_neg (by simp [hft]), if_neg hr]
        show (batchLoopMeta (some d) rest (k + 1)).1 + 1 ≤ d - k ∧
          d ≤ (batchLoopMeta (some d) rest (k + 1)).2
        exact ⟨by omega, hr2⟩

theorem done_suffix_shape {c : Prop} [Decidable c] (rd : PlotRefreshResult) :
    (if c then [(PlotRefreshEvents.done, rd)] else []) = [] ∨
    ∃ r, (if c then [(PlotRefreshEvents.done, rd)] else []) =
      [(PlotRefreshEvents.done, r)] := by
  by_cases h : c <;> simp [h]

/-- Claim C8: within one cycle the event trace is `started` first, then
only `batch_processed` events, then at most one `done`; and when refreshing
is disabled mid-batching (flag read `d` fails before the batches are
exhausted) nothing further is emitted — in particular no `done` — and the
trace is cut to at most the `started` event plus the batches before the
disable point. -/
theorem c8_event_order (env : Env) (now : Nat) (dis : Option Nat)
    (s : PlotManager) (hbs : s.refresh_parameter.batch_size ≠ 0) :
    (∃ r0 bps dn,
      (refresh_cycle env now dis s).2 =
        (PlotRefreshEvents.started, r0) :: (bps ++ dn) ∧
      (∀ ev ∈ bps, ev.1 = PlotRefreshEvents.batch_processed) ∧
      (dn = [] ∨ ∃ rd, dn = [(PlotRefreshEvents.done, rd)])) ∧
    (∀ d, dis = some d →
      d < (list_to_batches env.plot_paths s.refresh_parameter.batch_size).length →
      (∀ rd, (PlotRefreshEvents.done, rd) ∉ (refresh_cycle env now dis s).2) ∧
      (refresh_cycle env now dis s).2.length ≤ d + 1) := by
  constructor
  · refine ⟨_, _, _, rfl, ?_, ?_⟩
    · intro ev h
      exact batchLoop_events env now dis _ _ _ _ ev h
    · exact done_suffix_shape _
  · intro d hdis hd
    subst hdis
    have hwf := wfRemaining_list_to_batches env.plot_paths
      s.refresh_parameter.batch_size hbs
    obtain ⟨hm1, hm2⟩ := batchLoopMeta_disabled d
      ((list_to_batches env.plot_paths s.refresh_parameter.batch_size).map Prod.fst)
      0 hwf (by simpa using hd)
    have hreads := batchLoop_reads_eq env now (some d)
      (list_to_batches env.plot_paths s.refresh_parameter.batch_size) 0
      (diff_phase env s).1 { emptyResult with removed := (diff_phase env s).2 }
    have hlen := batchLoop_len_eq env now (some d)
      (list_to_batches env.plot_paths s.refresh_parameter.batch_size) 0
      (diff_phase env s).1 { emptyResult with removed := (diff_phase env s).2 }
    have hflag : flagAt (some d)
        ((batchLoop env now (some d)
          (list_to_batches env.plot_paths s.refresh_parameter.batch_size) 0
          (diff_phase env s).1
          { emptyResult with removed := (diff_phase env s).2 }).2.2.2) = false := by
      rw [hreads]
      simp only [flagAt, decide_eq_false_iff_not]
      omega
    constructor
    · intro rd hmem
      simp only [refresh_cycle] at hmem
      rw [hflag] at hmem
      simp at hmem
      have hbp := batchLoop_events env now (some d) _ _ _ _ _ hmem
      simp at hbp
    · simp only [refresh_cycle]
      rw [hflag]
      simp [List.length_append, List.length_cons]
      rw [hlen]
      omega

/-- Claim C8 witness: two one-path batches with the flag dropping at read 1:
the trace shape holds, no `done` is emitted, and the trace has at most 2
events. -/
theorem c8_witness :
    c8_manager.refresh_parameter.batch_size ≠ 0 ∧
    ((∃ r0 bps dn,
      (refresh_cycle c8_env 100 (some 1) c8_manager).2 =
        (PlotRefreshEvents.started, r0) :: (bps ++ dn) ∧
      (∀ ev ∈ bps, ev.1 = PlotRefreshEvents.batch_processed) ∧
      (dn = [] ∨ ∃ rd, dn = [(PlotRefreshEvents.done, rd)])) ∧
    (∀ d, (some 1 : Option Nat) = some d →
      d < (list_to_batches c8_env.plot_paths
            c8_manager.refresh_parameter.batch_size).length →
      (∀ rd, (PlotRefreshEvents.done, rd) ∉
        (refresh_cycle c8_env 100 (some 1) c8_manager).2) ∧
      (refresh_cycle c8_env 100 (some 1) c8_manager).2.length ≤ d + 1)) :=
  ⟨by decide, c8_event_order c8_env 100 (some 1) c8_manager (by decide)⟩

/-- Claim C9: a cycle aborted mid-batching (flag read `d` fails before the
batches are exhausted) still clears the `initial` flag, still performs the
cache TTL sweep (bump live entries, drop expired dead ones) followed by the
save-if-dirty step, and still stamps `last_refresh_time := now`; only the
observer events (in particular `done`) are suppressed. -/
theorem c9_abort_cleanup (env : Env) (now d : Nat) (s : PlotManager)
    (hbs : s.refresh_parameter.batch_size ≠ 0)
    (hd : d < (list_to_batches env.plot_paths s.refresh_parameter.batch_size).length) :
    (refresh_cycle env now (some d) s).1.initial = false ∧
    (refresh_cycle env now (some d) s).1.last_refresh_time = now ∧
    ((refresh_cycle env now (some d) s).1.cache =
      (let sm := (batchLoop env now (some d)
          (list_to_batches env.plot_paths s.refresh_parameter.batch_size) 0
          (diff_phase env s).1
          { emptyResult with removed := (diff_phase env s).2 }).1
       let c1 := cache_cleanup now env.expiry_seconds sm.plots sm.cache
       if c1.changed then c1.save else c1)) ∧
    (∀ rd, (PlotRefreshEvents.done, rd) ∉ (refresh_cycle env now (some d) s).2) := by
  refine ⟨rfl, rfl, rfl, ?_⟩
  have hwf := wfRemaining_list_to_batches env.plot_paths
    s.refresh_parameter.batch_size hbs
  obtain ⟨hm1, hm2⟩ := batchLoopMeta_disabled d
    ((list_to_batches env.plot_paths s.refresh_parameter.batch_size).map Prod.fst)
    0 hwf (by simpa using hd)
  have hreads := batchLoop_reads_eq env now (some d)
    (list_to_batches env.plot_paths s.refresh_parameter.batch_size) 0
    (diff_phase env s).1 { emptyResult with removed := (diff_phase env s).2 }
  have hflag : flagAt (some d)
      ((batchLoop env now (some d)
        (list_to_batches env.plot_paths s.refresh_parameter.batch_size) 0
        (diff_phase env s).1
        { emptyResult with removed := (diff_phase env s).2 }).2.2.2) = false := by
    rw [hreads]
    simp only [flagAt, decide_eq_false_iff_not]
    omega
  intro rd hmem
  simp only [refresh_cycle] at hmem
  rw [hflag] at hmem
  simp at hmem
  have hbp := batchLoop_events env now (some d) _ _ _ _ _ hmem
  simp at hbp

/-- Claim C9 witness: the abort-cleanup facts at the concrete two-batch
scenario with the flag dropping at read 1. -/
theorem c9_witness :
    c8_manager.refresh_parameter.batch_size ≠ 0 ∧
    1 < (list_to_batches c8_env.plot_paths
          c8_manager.refresh_parameter.batch_size).length ∧
    ((refresh_cycle c8_env 200 (some 1) c8_manager).1.initial = false ∧
     (refresh_cycle c8_env 200 (some 1) c8_manager).1.last_refresh_time = 200 ∧
     ((refresh_cycle c8_env 200 (some 1) c8_manager).1.cache =
       (let sm := (batchLoop c8_env 200 (some 1)
           (list_to_batches c8_env.plot_paths c8_manager.refresh_parameter.batch_size) 0
           (diff_phase c8_env c8_manager).1
           { emptyResult with removed := (diff_phase c8_env c8_manager).2 }).1
        let c1 := cache_cleanup 200 c8_env.expiry_seconds sm.plots sm.cache
        if c1.changed then c1.save else c1)) ∧
     (∀ rd, (PlotRefreshEvents.done, rd) ∉
       (refresh_cycle c8_env 200 (some 1) c8_manager).2)) :=
  ⟨by decide, by decide,
    c9_abort_cleanup c8_env 200 1 c8_manager (by decide) (by decide)⟩

/-- Claim C1 counterexample: start from the plot admitted (S1), rotate the
farmer allow-list to `[2]` (the plot's farmer key `1` is no longer
allowed), and run a full completed cycle over a filesystem that still
contains the plot.  Contrary to the claim, the path is NOT moved into the
no-key set and `plot_count()` is still 1: paths already in the live plots
map are skipped by `processing_required`, so the key change is never
re-checked. -/
theorem c1_counterexample :
    lookupA c1_rotated.plots examplePath = some exampleInfo ∧
    exampleInfo.prover.farmer_public_key ∉ c1_rotated.farmer_public_keys ∧
    (refresh_cycle loadEnv 100 none c1_rotated).1.no_key_filenames = [] ∧
    (refresh_cycle loadEnv 100 none c1_rotated).1.plot_count = 1 := by
  exact ⟨by decide, by decide, by decide, by decide⟩

/-- Claim C1 (amended): an admitted plot is never re-examined while it
stays in the live plots map — the admission gate returns `false` for every
live path — so after `set_public_keys` removes the plot's farmer key, the
next completed refresh cycle leaves the plot admitted: in the rotated S4
scenario the no-key set stays empty, the plot stays in the live plots map
and `plot_count()` stays 1. -/
theorem c1_amended :
    (∀ (s : PlotManager) (now : Nat) (p : PPath),
      (lookupA s.plots p).isSome = true → s.processing_required now p = false) ∧
    ((refresh_cycle loadEnv 100 none c1_rotated).1.no_key_filenames = [] ∧
     lookupA (refresh_cycle loadEnv 100 none c1_rotated).1.plots examplePath =
       some exampleInfo ∧
     (refresh_cycle loadEnv 100 none c1_rotated).1.plot_count = 1) := by
  constructor
  · intro s now p h
    simp [PlotManager.processing_required, h]
  · exact ⟨by decide, by decide, by decide⟩

/-- Claim C1 witness: the admitted rotated plot is skipped by the gate. -/
theorem c1_witness :
    (lookupA c1_rotated.plots examplePath).isSome = true ∧
    c1_rotated.processing_required 100 examplePath = false :=
  ⟨by decide, c1_amended.1 c1_rotated 100 examplePath (by decide)⟩
